import Mathlib

/-!
# SIK Radio receiver: telnet menu control plane

A shallow embedding of `src/receiver/tcp_server.cc` and `src/receiver/ui_menu.cc`.

The member variables of the two workers (`_stations`, `_current_station`,
`_audio_receiver_event`, `_client_sockets`, `_poll_fds`) become the fields of one
explicit state record `World`; every member function becomes a function on `World`.
A function that can throw or abort returns an `Outcome`, which carries the state at
the point where control left the function.
-/

namespace SikRadio

/-! ## Constants declared in `ui.hh` (not part of the sources at hand) -/

/-- The constants and the `HIGHLIGHT` macro of `ui.hh`, taken as parameters. -/
structure UiConsts where
  /-- The telnet line terminator `ui::telnet::newline`. -/
  newline : String
  /-- The macro `HIGHLIGHT(text)`. -/
  HIGHLIGHT : String → String
  /-- The option `ui::telnet::options::NAOFFD`. -/
  NAOFFD : String
  /-- The control sequence `ui::display::CLEAR`. -/
  CLEAR : String
  /-- The command `ui::telnet::commands::IAC`. -/
  IAC : String
  /-- The command `ui::telnet::commands::WILL`. -/
  WILL : String
  /-- The command `ui::telnet::commands::DO`. -/
  DO : String
  /-- The option `ui::telnet::options::ECHO`. -/
  ECHO : String
  /-- The option `ui::telnet::options::LINEMODE`. -/
  LINEMODE : String
  /-- The key sequence `ui::keys::ARROW_UP`. -/
  ARROW_UP : String
  /-- The key sequence `ui::keys::ARROW_DOWN`. -/
  ARROW_DOWN : String

/-- `HORIZONTAL_BAR` of `ui_menu.cc`: 72 dashes. -/
def HORIZONTAL_BAR : String :=
  "------------------------------------------------------------------------"

/-- `PROGRAM_NAME` of `ui_menu.cc`. -/
def PROGRAM_NAME : String := "SIK Radio"

/-- `CHOSEN_STATION_PREFIX` of `ui_menu.cc`. -/
def CHOSEN_STATION_PREFIX : String := " > "

/-- `POLLIN` of `<poll.h>`. -/
def POLLIN : Nat := 1

/-! ## Data model -/

/-- A station record: only `name` is read by the menu; the rest is opaque here. -/
structure Station where
  name : String
  addressing : String
deriving DecidableEq, Repr

/-- The tags of `EventQueue::EventType`. -/
inductive EventType where
  | TERMINATE
  | STATION_ADDED
  | STATION_REMOVED
  | CURRENT_STATION_CHANGED
deriving DecidableEq, Repr

/-- Modelled from the spec: the class `EventQueue` (its header is not among the
sources), a "typed-message queue" with `push(event)` and `pop() -> event`: the events
pushed and not yet popped, oldest first. -/
abbrev EventQueue := List EventType

/-- Modelled from the spec: `EventQueue::push`, which puts the event at the back. -/
def EventQueue.push (q : EventQueue) (event : EventType) : EventQueue :=
  q ++ [event]

/-- What one `getline` on a client's input stream yields. -/
inductive Inbound where
  | line (text : String)
  | fault (what : String)
deriving DecidableEq, Repr

/-- Modelled from the spec: the class `TcpClientSocket` (its header is not among the
sources). "A duplex byte stream": the output side is a buffer filled by `<<` and
emptied by `flush`; the input side reports end-of-stream and yields either a full
line or a fault ("`read_line(session) -> text | EofError | ProtocolError`"); a
session is "destroyed (stream closed, slot freed)", so the destructor closes `fd`. -/
structure TcpClientSocket where
  fd : Int
  out_buffer : String
  in_eof : Bool
  in_pending : List Inbound
deriving DecidableEq, Repr

/-- The constructor `TcpClientSocket(client_fd)`. -/
def TcpClientSocket.create (client_fd : Int) : TcpClientSocket :=
  { fd := client_fd, out_buffer := "", in_eof := false, in_pending := [] }

/-- The POSIX `struct pollfd`. -/
structure pollfd where
  fd : Int
  events : Nat
  revents : Nat
deriving DecidableEq, Repr

/-- Modelled from the spec: the class `SyncedPtr` (its header is not among the
sources), "an explicit mutually-exclusive guard type wrapping the state": `x.lock()`
returns a guard, and the lock of `x` is held from then until the scope of the
variable the guard is stored in ends. These are the four objects locked in the code. -/
inductive Lock where
  | stations
  | current_station
  | audio_receiver_event
  | client_sockets
deriving DecidableEq, Repr

/-- The externally visible actions of the workers, in program order. -/
inductive Act where
  /-- `x.lock()` returned its guard. -/
  | acquire (l : Lock)
  /-- The guard obtained from `x.lock()` went out of scope. -/
  | release (l : Lock)
  /-- Entry into `send_to_all(msg)`. -/
  | broadcast (msg : String)
  /-- A `flush` of the output stream of the socket `fd`, sending `bytes`. -/
  | flush (fd : Int) (bytes : String)
  /-- The destructor of the socket `fd` ran, closing the connection. -/
  | close (fd : Int)
deriving DecidableEq, Repr

/-- The state shared by `TcpServerWorker` and `UiMenuWorker`. The station set is
kept in iteration order and `current_station`, an iterator into it, is the position
it points at (`begin()` is `0`, `end()` is the length). -/
structure World where
  stations : List Station
  current_station : Nat
  audio_receiver_event : EventQueue
  client_sockets : List (Option TcpClientSocket)
  poll_fds : List pollfd
  trace : List Act
deriving DecidableEq, Repr

/-- How a member function ends; `w` is the state at that moment. -/
inductive Outcome where
  /-- Normal return. -/
  | ok (w : World)
  /-- A `std::exception` with message `what` left the function. -/
  | raised (what : String) (w : World)
  /-- The process stopped: a failed `assert` or a null dereference. -/
  | aborted (w : World)
deriving DecidableEq, Repr

/-- The state an outcome carries. -/
def Outcome.state : Outcome → World
  | .ok w => w
  | .raised _ w => w
  | .aborted w => w

/-- Sequencing: the next statement runs only after a normal return. -/
def Outcome.andThen (o : Outcome) (k : World → Outcome) : Outcome :=
  match o with
  | .ok w => k w
  | .raised what w => .raised what w
  | .aborted w => .aborted w

/-- Record one action. -/
def World.emit (w : World) (a : Act) : World :=
  { w with trace := w.trace ++ [a] }

/-- Whether the slot `i` exists and is empty (`get() == nullptr`). -/
def World.slot_empty (w : World) (i : Nat) : Prop :=
  w.client_sockets[i]? = some none

/-- Whether the descriptor `i` exists and is inactive (`fd == -1`). -/
def World.fd_inactive (w : World) (i : Nat) : Prop :=
  (w.poll_fds[i]?).map pollfd.fd = some (-1)

instance (w : World) (i : Nat) : Decidable (w.slot_empty i) := by
  unfold World.slot_empty; infer_instance

instance (w : World) (i : Nat) : Decidable (w.fd_inactive i) := by
  unfold World.fd_inactive; infer_instance

/-! ## `ui_menu.cc` -/

/-- The stream insertions of `menu_to_str`'s loop, from position `i` on: `ss` is the
string stream so far and `rest` the stations not yet visited. -/
def menu_to_str_loop (c : UiConsts) (current_station : Nat) :
    Nat → List Station → String → String
  | _, [], ss => ss
  | i, st :: rest, ss =>
    let ss1 := if i = current_station then ss ++ c.HIGHLIGHT CHOSEN_STATION_PREFIX else ss
    menu_to_str_loop c current_station (i + 1) rest (ss1 ++ st.name ++ c.newline)

/-- `UiMenuWorker::menu_to_str`. -/
def menu_to_str (c : UiConsts) (w : World) : String :=
  let ss := "" ++ HORIZONTAL_BAR ++ c.newline ++ PROGRAM_NAME ++ c.newline
    ++ HORIZONTAL_BAR ++ c.newline
  let ss := menu_to_str_loop c w.current_station 0 w.stations ss
  ss ++ HORIZONTAL_BAR

/-- `UiMenuWorker::send_msg` on one socket: three insertions, then `flush`, which
sends the buffer and empties it. Returns the socket and the action. -/
def send_msg (c : UiConsts) (client : TcpClientSocket) (msg : String) :
    TcpClientSocket × Act :=
  let buf := client.out_buffer ++ c.NAOFFD ++ c.CLEAR ++ msg
  ({ client with out_buffer := "" }, Act.flush client.fd buf)

/-- The range-`for` of `send_to_all` over the sockets not yet visited; `done` are the
slots already visited. -/
def send_to_all_loop (c : UiConsts) (msg : String) :
    List (Option TcpClientSocket) → List (Option TcpClientSocket) → List Act →
    List (Option TcpClientSocket) × List Act
  | [], done, tr => (done, tr)
  | none :: rest, done, tr => send_to_all_loop c msg rest (done ++ [none]) tr
  | some sock :: rest, done, tr =>
    let r := send_msg c sock msg
    send_to_all_loop c msg rest (done ++ [some r.1]) (tr ++ [r.2])

/-- `UiMenuWorker::send_to_all`. -/
def send_to_all (c : UiConsts) (msg : String) (w : World) : World :=
  let w := (w.emit (.broadcast msg)).emit (.acquire .client_sockets)
  let r := send_to_all_loop c msg w.client_sockets [] w.trace
  let w := { w with client_sockets := r.1, trace := r.2 }
  w.emit (.release .client_sockets)

/-- `UiMenuWorker::cmd_move_up`. The two guards live to the end of the function and
are destroyed in reverse order; the event guard lives to the end of the `if` block.
This is the function on a non-empty station set with the iterator on one of its
elements; elsewhere the source is undefined and nothing is claimed of it. -/
def cmd_move_up (c : UiConsts) (w : World) : World :=
  let w := w.emit (.acquire .stations)
  let w := w.emit (.acquire .current_station)
  let w :=
    if w.current_station ≠ 0 then
      let w := { w with current_station := w.current_station - 1 }
      let w := w.emit (.acquire .audio_receiver_event)
      let w := { w with
        audio_receiver_event := w.audio_receiver_event.push EventType.CURRENT_STATION_CHANGED }
      w.emit (.release .audio_receiver_event)
    else w
  let w := send_to_all c (menu_to_str c w) w
  let w := w.emit (.release .current_station)
  w.emit (.release .stations)

/-- `UiMenuWorker::cmd_move_down`. This is the function on a non-empty station set
with the iterator on one of its elements, where `std::prev(_stations->end())` is the
last position `length - 1` and `++` stays inside the set. On an empty set, or with
the iterator at `end()`, the source is undefined (`std::prev` of `begin()`, `++` past
`end()`) and nothing is claimed of it: the theorems on this command assume a
non-empty list and a valid cursor. -/
def cmd_move_down (c : UiConsts) (w : World) : World :=
  let w := w.emit (.acquire .stations)
  let w := w.emit (.acquire .current_station)
  let w :=
    if w.current_station ≠ w.stations.length - 1 then
      let w := { w with current_station := w.current_station + 1 }
      let w := w.emit (.acquire .audio_receiver_event)
      let w := { w with
        audio_receiver_event := w.audio_receiver_event.push EventType.CURRENT_STATION_CHANGED }
      w.emit (.release .audio_receiver_event)
    else w
  let w := send_to_all c (menu_to_str c w) w
  let w := w.emit (.release .current_station)
  w.emit (.release .stations)

/-- `UiMenuWorker::config_telnet_client`: nine insertions, then `flush`. -/
def config_telnet_client (c : UiConsts) (client : TcpClientSocket) :
    TcpClientSocket × Act :=
  let buf := client.out_buffer ++ c.IAC ++ c.WILL ++ c.ECHO ++ c.IAC ++ c.DO ++ c.ECHO
    ++ c.IAC ++ c.DO ++ c.LINEMODE
  ({ client with out_buffer := "" }, Act.flush client.fd buf)

/-- `UiMenuWorker::greet_telnet_client`, with the menu text already rendered. -/
def greet_telnet_client (c : UiConsts) (client : TcpClientSocket) (menu : String) :
    TcpClientSocket × Act :=
  send_msg c client menu

/-- `UiMenuWorker::disconnect_client`. `at` throws on an index out of range; the
explicit destructor call through an empty `unique_ptr` stops the process. The
destructor runs a second time inside `reset()`. -/
def disconnect_client (client_id : Nat) (w : World) : Outcome :=
  match w.poll_fds[client_id]? with
  | none => .raised "vector::at" w
  | some p =>
    let w := { w with poll_fds := w.poll_fds.set client_id { p with fd := -1 } }
    match w.client_sockets[client_id]? with
    | none => .raised "vector::at" w
    | some none => .aborted w
    | some (some sock) =>
      let w := w.emit (.close sock.fd)
      let w := w.emit (.close sock.fd)
      .ok { w with client_sockets := w.client_sockets.set client_id none }

/-- `UiMenuWorker::read_cmd`: the line read and the socket afterwards, or the
message of the exception thrown. `getline` yields what is pending on the input side
of the socket; with nothing pending the read ends at end-of-stream, a fault. -/
def read_cmd (socket : TcpClientSocket) : Except String (String × TcpClientSocket) :=
  if socket.in_eof then .error "Client already disconnected"
  else
    match socket.in_pending with
    | [] => .error "end of stream"
    | .line text :: rest => .ok (text, { socket with in_pending := rest })
    | .fault what :: _ => .error what

/-- The two closures stored in `_command_map`. -/
inductive Command where
  | move_up
  | move_down
deriving DecidableEq, Repr

/-- Calling a stored closure. -/
def Command.call (c : UiConsts) : Command → World → World
  | .move_up => cmd_move_up c
  | .move_down => cmd_move_down c

/-- `std::map::emplace`: no insertion when the key is already present. -/
def emplace (m : List (String × Command)) (key : String) (f : Command) :
    List (String × Command) :=
  match m.lookup key with
  | some _ => m
  | none => m ++ [(key, f)]

/-- The `_command_map` the constructor of `UiMenuWorker` builds. -/
def command_map (c : UiConsts) : List (String × Command) :=
  emplace (emplace [] c.ARROW_UP .move_up) c.ARROW_DOWN .move_down

/-- `UiMenuWorker::apply_cmd`. -/
def apply_cmd (c : UiConsts) (cmd_buf : String) (w : World) : Outcome :=
  match (command_map c).lookup cmd_buf with
  | none => .raised "Unknown command" w
  | some cmd_fun => .ok (cmd_fun.call c w)

/-- The `try` block of `UiMenuWorker::run` for the client `i`, whose socket is `sock`. -/
def run_try_block (c : UiConsts) (i : Nat) (sock : TcpClientSocket) (w : World) : Outcome :=
  match read_cmd sock with
  | .error what => .raised what w
  | .ok (cmd_buf, sock1) =>
    apply_cmd c cmd_buf { w with client_sockets := w.client_sockets.set i (some sock1) }

/-- The body of the `for` loop of `UiMenuWorker::run` for the index `i`. -/
def run_session_step (c : UiConsts) (i : Nat) (w : World) : Outcome :=
  match w.poll_fds[i]? with
  | none => .raised "vector::at" w
  | some p =>
    if p.fd ≠ -1 ∧ p.revents &&& POLLIN ≠ 0 then
      match w.client_sockets[i]? with
      | none => .raised "vector::at" w
      | some none => .aborted w
      | some (some sock) =>
        let w := { w with poll_fds := w.poll_fds.set i { p with revents := 0 } }
        if sock.in_eof then disconnect_client i w
        else
          match run_try_block c i sock w with
          | .ok w1 => .ok w1
          | .raised _ w1 => disconnect_client i w1
          | .aborted w1 => .aborted w1
    else .ok w

/-- The `for` loop of `UiMenuWorker::run`: `n` iterations are left, starting at `i`. -/
def run_sessions_loop (c : UiConsts) : Nat → Nat → World → Outcome
  | 0, _, w => .ok w
  | n + 1, i, w => (run_session_step c i w).andThen (run_sessions_loop c n (i + 1))

/-- The session-scanning phase of one iteration of `UiMenuWorker::run`: the lock on
the client sockets is taken, every slot is visited, and the guard is destroyed at the
end of the iteration or while an exception unwinds. -/
def run_sessions (c : UiConsts) (w : World) : Outcome :=
  let NUM_CLIENTS := w.client_sockets.length
  match run_sessions_loop c NUM_CLIENTS 0 (w.emit (.acquire .client_sockets)) with
  | .ok w1 => .ok (w1.emit (.release .client_sockets))
  | .raised what w1 => .raised what (w1.emit (.release .client_sockets))
  | .aborted w1 => .aborted w1

/-! ## `tcp_server.cc`

The calls `TcpClientHandlerWorker::config_telnet_client` and
`_client_handler->greet_telnet_client` are the functions of those names in
`ui_menu.cc`. `MAX_CLIENTS` is declared in a header and is a parameter here. -/

/-- The `for` loop of `TcpServerWorker::try_register_client`: `n` iterations are left,
starting at `i`. The assignment to the slot destroys the socket it held; the new
socket is written to twice and is stored into the slot here after these writes, which
gives the same state as storing it first and writing through the slot. -/
def try_register_client_loop (c : UiConsts) (client_fd : Int) : Nat → Nat → World → Outcome
  | 0, _, w => .raised "Too many clients" w
  | n + 1, i, w =>
    match w.client_sockets[i]? with
    | none => .raised "vector::at" w
    | some none => try_register_client_loop c client_fd n (i + 1) w
    | some (some old) =>
      match w.poll_fds[i]? with
      | none => .raised "vector::at" w
      | some p =>
        if p.fd = -1 then .aborted w
        else
          let w := { w with poll_fds := w.poll_fds.set i { p with fd := client_fd } }
          let w := w.emit (.close old.fd)
          let r := config_telnet_client c (TcpClientSocket.create client_fd)
          let w := w.emit r.2
          let r := greet_telnet_client c r.1 (menu_to_str c w)
          let w := w.emit r.2
          .ok { w with client_sockets := w.client_sockets.set i (some r.1) }

/-- `TcpServerWorker::try_register_client`. The guard is destroyed on return and
while the exception unwinds. -/
def try_register_client (c : UiConsts) (MAX_CLIENTS : Nat) (client_fd : Int) (w : World) :
    Outcome :=
  match try_register_client_loop c client_fd MAX_CLIENTS 0 (w.emit (.acquire .client_sockets)) with
  | .ok w1 => .ok (w1.emit (.release .client_sockets))
  | .raised what w1 => .raised what (w1.emit (.release .client_sockets))
  | .aborted w1 => .aborted w1

/-- One iteration of the `while` loop of `TcpServerWorker::run`, in which `accept`
returned `client_fd`: the exception is caught and logged, nothing else is done. -/
def TcpServerWorker_run_step (c : UiConsts) (MAX_CLIENTS : Nat) (client_fd : Int) (w : World) :
    Outcome :=
  match try_register_client c MAX_CLIENTS client_fd w with
  | .raised _ w1 => .ok w1
  | o => o

/-! ## Specification-side definitions -/

/-- The fixed banner: rule, title, rule, each followed by the line terminator. -/
def banner (c : UiConsts) : String :=
  HORIZONTAL_BAR ++ c.newline ++ PROGRAM_NAME ++ c.newline ++ HORIZONTAL_BAR ++ c.newline

/-- The line of the station at position `i`: its name and the line terminator, after
the highlighted prefix when `i` is the cursor. -/
def station_line (c : UiConsts) (cursor : Nat) (i : Nat) (st : Station) : String :=
  (if i = cursor then c.HIGHLIGHT CHOSEN_STATION_PREFIX else "") ++ st.name ++ c.newline

/-- The lines of the menu, one per station, in sequence order. -/
def station_lines (c : UiConsts) (cursor : Nat) (stations : List Station) : List String :=
  stations.enum.map (fun p => station_line c cursor p.1 p.2)

/-- The text `render(stations, cursor)` as the specification words it: the banner
followed by one line per station, and nothing else. -/
def render_spec (c : UiConsts) (stations : List Station) (cursor : Nat) : String :=
  banner c ++ String.join (station_lines c cursor stations)

/-- The sockets of the occupied slots, in increasing slot order. -/
def occupied (slots : List (Option TcpClientSocket)) : List TcpClientSocket :=
  slots.filterMap id

/-- The frame `send_msg` puts on the wire of `sock` for the text `msg`. -/
def frame (c : UiConsts) (msg : String) (sock : TcpClientSocket) : Act :=
  Act.flush sock.fd (sock.out_buffer ++ c.NAOFFD ++ c.CLEAR ++ msg)

/-- A socket after a `flush`: nothing is left in its output buffer. -/
def flushed (sock : TcpClientSocket) : TcpClientSocket :=
  { sock with out_buffer := "" }

/-- The messages of the `send_to_all` calls in a trace, in order. -/
def broadcasts : List Act → List String
  | [] => []
  | Act.broadcast msg :: rest => msg :: broadcasts rest
  | _ :: rest => broadcasts rest

/-- The effect of one action on the list of locks held (latest first). -/
def holds_step (held : List Lock) : Act → List Lock
  | Act.acquire l => l :: held
  | Act.release l => held.erase l
  | _ => held

/-- The locks held after the actions of a trace, the latest acquired first. -/
def holds (tr : List Act) : List Lock :=
  tr.foldl holds_step []

/-- Slot/descriptor consistency of a table of `MAX_CLIENTS` slots: slot `i` is empty
iff descriptor `i` is inactive. -/
def Consistent (MAX_CLIENTS : Nat) (w : World) : Prop :=
  ∀ i, i < MAX_CLIENTS → (w.slot_empty i ↔ w.fd_inactive i)

instance (MAX_CLIENTS : Nat) (w : World) : Decidable (Consistent MAX_CLIENTS w) := by
  unfold Consistent; infer_instance

/-- The states reached from a table whose `MAX_CLIENTS` slots are all empty and whose
descriptors are all inactive, by registering clients (whether or not the call
returns normally), by disconnecting clients of occupied slots, by the step of the
dispatch loop for any slot, and by a broadcast. -/
inductive Reachable (c : UiConsts) (MAX_CLIENTS : Nat) : World → Prop where
  | init (w : World) (h : ∀ i, i < MAX_CLIENTS → w.slot_empty i ∧ w.fd_inactive i) :
      Reachable c MAX_CLIENTS w
  | register (w : World) (client_fd : Int) (h : Reachable c MAX_CLIENTS w)
      (hfd : client_fd ≠ -1) :
      Reachable c MAX_CLIENTS (try_register_client c MAX_CLIENTS client_fd w).state
  | disconnect (w : World) (k : Nat) (sock : TcpClientSocket) (h : Reachable c MAX_CLIENTS w)
      (hk : w.client_sockets[k]? = some (some sock)) :
      Reachable c MAX_CLIENTS (disconnect_client k w).state
  | dispatch (w : World) (i : Nat) (h : Reachable c MAX_CLIENTS w) :
      Reachable c MAX_CLIENTS (run_session_step c i w).state
  | broadcast (w : World) (msg : String) (h : Reachable c MAX_CLIENTS w) :
      Reachable c MAX_CLIENTS (send_to_all c msg w)

/-! ## Concrete scenarios -/

/-- One choice of the constants of `ui.hh`, for the concrete scenarios. -/
def sample_consts : UiConsts :=
  { newline := "\r\n"
    HIGHLIGHT := fun text => "\x1b[1m" ++ text ++ "\x1b[0m"
    NAOFFD := "\x0d"
    CLEAR := "\x1b[2J\x1b[H"
    IAC := "\xff"
    WILL := "\xfb"
    DO := "\xfd"
    ECHO := "\x01"
    LINEMODE := "\x22"
    ARROW_UP := "\x1b[A"
    ARROW_DOWN := "\x1b[B" }

/-- The station list of the scenario of the specification. -/
def scenario_stations : List Station :=
  [⟨"Jazz FM", ""⟩, ⟨"Rock Radio", ""⟩, ⟨"News 24", ""⟩]

/-- The table of two slots with no client, every descriptor of a slot inactive; the
third descriptor is the event inbox. -/
def empty_table : World :=
  { stations := scenario_stations
    current_station := 0
    audio_receiver_event := []
    client_sockets := [none, none]
    poll_fds := [⟨-1, POLLIN, 0⟩, ⟨-1, POLLIN, 0⟩, ⟨3, POLLIN, 0⟩]
    trace := [] }

/-- The scenario with the cursor on "News 24" and one client, in slot 0. -/
def on_news : World :=
  { stations := scenario_stations
    current_station := 2
    audio_receiver_event := []
    client_sockets := [some (TcpClientSocket.create 4), none]
    poll_fds := [⟨4, POLLIN, 0⟩, ⟨-1, POLLIN, 0⟩, ⟨3, POLLIN, 0⟩]
    trace := [] }

/-- The full table of two slots: clients on the descriptors 4 and 6. -/
def full_table : World :=
  { stations := scenario_stations
    current_station := 0
    audio_receiver_event := []
    client_sockets := [some (TcpClientSocket.create 4), some (TcpClientSocket.create 6)]
    poll_fds := [⟨4, POLLIN, 0⟩, ⟨6, POLLIN, 0⟩, ⟨3, POLLIN, 0⟩]
    trace := [] }

/-- The full table of two slots after `poll` reported input on slot 1: its client
sent the line "x", which is no command. -/
def slot_1_sent_x : World :=
  { stations := scenario_stations
    current_station := 0
    audio_receiver_event := []
    client_sockets := [some (TcpClientSocket.create 4),
      some { TcpClientSocket.create 6 with in_pending := [Inbound.line "x"] }]
    poll_fds := [⟨4, POLLIN, 0⟩, ⟨6, POLLIN, POLLIN⟩, ⟨3, POLLIN, 0⟩]
    trace := [] }

/-- The table with one client, in slot 0, after `poll` reported input on it: the
client sent the down-arrow key sequence. -/
def slot_0_sent_down : World :=
  { stations := scenario_stations
    current_station := 0
    audio_receiver_event := []
    client_sockets :=
      [some { TcpClientSocket.create 4 with in_pending := [Inbound.line "\x1b[B"] }, none]
    poll_fds := [⟨4, POLLIN, POLLIN⟩, ⟨-1, POLLIN, 0⟩, ⟨3, POLLIN, 0⟩]
    trace := [] }

/-- Some Navigation State lock and the Slot Table lock are both among `held`. -/
def nav_and_slot_held (held : List Lock) : Prop :=
  (Lock.stations ∈ held ∨ Lock.current_station ∈ held) ∧ Lock.client_sockets ∈ held

instance (held : List Lock) : Decidable (nav_and_slot_held held) := by
  unfold nav_and_slot_held; infer_instance

/-- The lock discipline of the specification, for the actions `tr` of one command: at
no point of `tr` are a Navigation State lock and the Slot Table lock both held. -/
def never_both_held (tr : List Act) : Prop :=
  ∀ n, n ≤ tr.length → ¬ nav_and_slot_held (holds (tr.take n))

/-! ## Basic facts -/

@[simp] theorem emit_stations (w : World) (a : Act) : (w.emit a).stations = w.stations := rfl
@[simp] theorem emit_current_station (w : World) (a : Act) :
    (w.emit a).current_station = w.current_station := rfl
@[simp] theorem emit_audio (w : World) (a : Act) :
    (w.emit a).audio_receiver_event = w.audio_receiver_event := rfl
@[simp] theorem emit_client_sockets (w : World) (a : Act) :
    (w.emit a).client_sockets = w.client_sockets := rfl
@[simp] theorem emit_poll_fds (w : World) (a : Act) : (w.emit a).poll_fds = w.poll_fds := rfl
@[simp] theorem emit_trace (w : World) (a : Act) : (w.emit a).trace = w.trace ++ [a] := rfl

theorem menu_to_str_congr (c : UiConsts) (w1 w2 : World) (hs : w1.stations = w2.stations)
    (hc : w1.current_station = w2.current_station) : menu_to_str c w1 = menu_to_str c w2 := by
  simp [menu_to_str, hs, hc]

/-- The loop of `send_to_all` flushes the sockets it visits and adds their frames. -/
theorem send_to_all_loop_eq (c : UiConsts) (msg : String)
    (rest done : List (Option TcpClientSocket)) (tr : List Act) :
    send_to_all_loop c msg rest done tr =
      (done ++ rest.map (Option.map flushed), tr ++ (occupied rest).map (frame c msg)) := by
  induction rest generalizing done tr with
  | nil => simp [send_to_all_loop, occupied]
  | cons x xs ih =>
    cases x with
    | none => simp [send_to_all_loop, ih, occupied]
    | some sock => simp [send_to_all_loop, ih, occupied, send_msg, frame, flushed]

theorem send_to_all_eq (c : UiConsts) (msg : String) (w : World) :
    send_to_all c msg w =
      { w with
        client_sockets := w.client_sockets.map (Option.map flushed)
        trace := w.trace ++ [Act.broadcast msg, Act.acquire .client_sockets]
          ++ (occupied w.client_sockets).map (frame c msg) ++ [Act.release .client_sockets] } := by
  simp [send_to_all, send_to_all_loop_eq, World.emit]

/-! ## Broadcast -/

/-- C7. `send_to_all` puts on the wire, between taking and releasing the lock on the
client sockets, one frame per occupied slot, in increasing slot order, each frame
carrying the same text `msg` (after what was pending in the socket's buffer, the
option `NAOFFD` and the clear-screen sequence); an empty slot gets nothing and stays
empty, an occupied slot keeps its socket (with the buffer flushed), and the station
list, the cursor, the event queue and all descriptors are unchanged. -/
theorem send_to_all_complete (c : UiConsts) (msg : String) (w : World) :
    (send_to_all c msg w).trace =
        w.trace ++ [Act.broadcast msg, Act.acquire .client_sockets]
          ++ (occupied w.client_sockets).map
              (fun sock => Act.flush sock.fd (sock.out_buffer ++ c.NAOFFD ++ c.CLEAR ++ msg))
          ++ [Act.release .client_sockets]
    ∧ (send_to_all c msg w).client_sockets.length = w.client_sockets.length
    ∧ (∀ i : Nat, w.client_sockets[i]? = some none →
        (send_to_all c msg w).client_sockets[i]? = some none)
    ∧ (∀ (i : Nat) (sock : TcpClientSocket), w.client_sockets[i]? = some (some sock) →
        (send_to_all c msg w).client_sockets[i]? = some (some { sock with out_buffer := "" }))
    ∧ (send_to_all c msg w).poll_fds = w.poll_fds
    ∧ (send_to_all c msg w).stations = w.stations
    ∧ (send_to_all c msg w).current_station = w.current_station
    ∧ (send_to_all c msg w).audio_receiver_event = w.audio_receiver_event := by
  rw [send_to_all_eq]
  refine ⟨rfl, by simp, ?_, ?_, rfl, rfl, rfl, rfl⟩
  · intro i h
    simp [List.getElem?_map, h]
  · intro i sock h
    simp [List.getElem?_map, h, flushed]

/-! ## Rendering -/

theorem foldl_append_string (l : List String) (acc : String) :
    l.foldl (fun r s => r ++ s) acc = acc ++ l.foldl (fun r s => r ++ s) "" := by
  induction l generalizing acc with
  | nil => simp
  | cons x xs ih =>
    simp only [List.foldl_cons, String.empty_append]
    rw [ih (acc ++ x), ih x, String.append_assoc]

theorem join_cons (x : String) (xs : List String) :
    String.join (x :: xs) = x ++ String.join xs := by
  simp only [String.join, List.foldl_cons, String.empty_append]
  exact foldl_append_string xs x

/-- The loop of `menu_to_str` appends the lines of the stations it visits. -/
theorem menu_to_str_loop_eq (c : UiConsts) (cursor : Nat) (rest : List Station) (i : Nat)
    (ss : String) :
    menu_to_str_loop c cursor i rest ss =
      ss ++ String.join ((rest.enumFrom i).map (fun p => station_line c cursor p.1 p.2)) := by
  induction rest generalizing i ss with
  | nil => simp [menu_to_str_loop, String.join]
  | cons st sts ih =>
    simp only [menu_to_str_loop, List.enumFrom_cons, List.map_cons, join_cons, ih, station_line]
    by_cases h : i = cursor <;> simp [h, String.append_assoc]

theorem menu_to_str_eq (c : UiConsts) (w : World) :
    menu_to_str c w = render_spec c w.stations w.current_station ++ HORIZONTAL_BAR := by
  simp [menu_to_str, menu_to_str_loop_eq, render_spec, banner, station_lines, List.enum,
    String.append_assoc]

/-- C9, as the claim states it, fails: for the three stations of the scenario with the
cursor on "News 24" the text is not the banner followed by the three lines, a closing
rule follows them. -/
theorem menu_to_str_not_render_spec :
    menu_to_str sample_consts on_news ≠ render_spec sample_consts scenario_stations 2 := by
  intro h
  have h2 : menu_to_str sample_consts on_news =
      render_spec sample_consts scenario_stations 2 ++ HORIZONTAL_BAR := menu_to_str_eq _ _
  have hbar : HORIZONTAL_BAR.length = 72 := rfl
  have hl := congrArg String.length (h2.symm.trans h)
  rw [String.length_append, hbar] at hl
  omega

/-- C9, amended. `menu_to_str` returns the banner (rule, title "SIK Radio", rule, each
followed by the line terminator), then one line per station in sequence order, each
the station's name followed by the line terminator, the line at the cursor and no
other preceded by the highlighted prefix " > ", and then a closing rule without a
line terminator; the text depends only on the station list and the cursor. -/
theorem menu_to_str_render (c : UiConsts) (w : World) :
    menu_to_str c w =
        (HORIZONTAL_BAR ++ c.newline ++ PROGRAM_NAME ++ c.newline ++ HORIZONTAL_BAR ++ c.newline)
          ++ String.join (station_lines c w.current_station w.stations)
          ++ HORIZONTAL_BAR
    ∧ (station_lines c w.current_station w.stations).length = w.stations.length
    ∧ (∀ (i : Nat) (st : Station), w.stations[i]? = some st →
        (station_lines c w.current_station w.stations)[i]? =
          some (if i = w.current_station
            then c.HIGHLIGHT CHOSEN_STATION_PREFIX ++ st.name ++ c.newline
            else st.name ++ c.newline))
    ∧ (∀ w2 : World, w2.stations = w.stations → w2.current_station = w.current_station →
        menu_to_str c w2 = menu_to_str c w) := by
  refine ⟨?_, by simp [station_lines], ?_, ?_⟩
  · rw [menu_to_str_eq]; rfl
  · intro i st h
    simp only [station_lines, List.getElem?_map, List.getElem?_enum, h, station_line,
      Option.map_some']
    by_cases hc : i = w.current_station <;> simp [hc, String.append_assoc]
  · intro w2 hs hc
    exact menu_to_str_congr c w2 w hs hc

/-- The menu of the scenario with the cursor on "News 24", line by line. -/
theorem menu_to_str_render_witness :
    menu_to_str sample_consts on_news =
      "------------------------------------------------------------------------\r\n"
      ++ "SIK Radio\r\n"
      ++ "------------------------------------------------------------------------\r\n"
      ++ "Jazz FM\r\n"
      ++ "Rock Radio\r\n"
      ++ "\x1b[1m > \x1b[0mNews 24\r\n"
      ++ "------------------------------------------------------------------------" := by
  have h := (menu_to_str_render sample_consts on_news).1
  rw [h]
  rfl

/-! ## Navigation -/

theorem broadcasts_append (a b : List Act) :
    broadcasts (a ++ b) = broadcasts a ++ broadcasts b := by
  induction a with
  | nil => rfl
  | cons x xs ih => cases x <;> simp [broadcasts, ih]

theorem broadcasts_frames (c : UiConsts) (msg : String) (socks : List TcpClientSocket) :
    broadcasts (socks.map (frame c msg)) = [] := by
  induction socks with
  | nil => rfl
  | cons x xs ih => simpa [broadcasts, frame] using ih

/-- What `cmd_move_up` does to every field of the state. -/
theorem cmd_move_up_eq (c : UiConsts) (w : World) :
    cmd_move_up c w =
      { w with
        current_station := if w.current_station = 0 then 0 else w.current_station - 1
        audio_receiver_event := w.audio_receiver_event ++
          (if w.current_station = 0 then [] else [EventType.CURRENT_STATION_CHANGED])
        client_sockets := w.client_sockets.map (Option.map flushed)
        trace := w.trace ++ [Act.acquire .stations, Act.acquire .current_station]
          ++ (if w.current_station = 0 then []
              else [Act.acquire .audio_receiver_event, Act.release .audio_receiver_event])
          ++ [Act.broadcast (menu_to_str c
                { w with current_station :=
                    if w.current_station = 0 then 0 else w.current_station - 1 }),
              Act.acquire .client_sockets]
          ++ (occupied w.client_sockets).map (frame c (menu_to_str c
                { w with current_station :=
                    if w.current_station = 0 then 0 else w.current_station - 1 }))
          ++ [Act.release .client_sockets, Act.release .current_station,
              Act.release .stations] } := by
  unfold cmd_move_up
  by_cases h : w.current_station = 0
  · simp [h, send_to_all_eq, World.emit, menu_to_str, EventQueue.push]
  · simp [h, send_to_all_eq, World.emit, menu_to_str, EventQueue.push]

/-- What `cmd_move_down` does to every field of the state. -/
theorem cmd_move_down_eq (c : UiConsts) (w : World) :
    cmd_move_down c w =
      { w with
        current_station :=
          if w.current_station = w.stations.length - 1 then w.current_station
          else w.current_station + 1
        audio_receiver_event := w.audio_receiver_event ++
          (if w.current_station = w.stations.length - 1 then []
           else [EventType.CURRENT_STATION_CHANGED])
        client_sockets := w.client_sockets.map (Option.map flushed)
        trace := w.trace ++ [Act.acquire .stations, Act.acquire .current_station]
          ++ (if w.current_station = w.stations.length - 1 then []
              else [Act.acquire .audio_receiver_event, Act.release .audio_receiver_event])
          ++ [Act.broadcast (menu_to_str c
                { w with current_station :=
                    if w.current_station = w.stations.length - 1 then w.current_station
                    else w.current_station + 1 }),
              Act.acquire .client_sockets]
          ++ (occupied w.client_sockets).map (frame c (menu_to_str c
                { w with current_station :=
                    if w.current_station = w.stations.length - 1 then w.current_station
                    else w.current_station + 1 }))
          ++ [Act.release .client_sockets, Act.release .current_station,
              Act.release .stations] } := by
  unfold cmd_move_down
  by_cases h : w.current_station = w.stations.length - 1
  · simp [← h, send_to_all_eq, World.emit, menu_to_str, EventQueue.push]
  · simp [h, send_to_all_eq, World.emit, menu_to_str, EventQueue.push]

/-- C4. On a non-empty station list with a valid cursor, `cmd_move_up` leaves the
cursor at 0 when it is 0 and otherwise moves it to the previous position, and
`cmd_move_down` leaves it at the last position when it is there and otherwise moves it
to the next one; the cursor never wraps, stays a valid index, the station list is
unchanged, and a saturated move broadcasts and renders the same text as the render
before it. -/
theorem navigation_saturating (c : UiConsts) (w : World)
    (hne : w.stations ≠ []) (hc : w.current_station < w.stations.length) :
    (cmd_move_up c w).current_station =
        (if w.current_station = 0 then 0 else w.current_station - 1)
    ∧ (cmd_move_down c w).current_station =
        (if w.current_station = w.stations.length - 1 then w.stations.length - 1
         else w.current_station + 1)
    ∧ (cmd_move_up c w).current_station ≤ w.current_station
    ∧ w.current_station ≤ (cmd_move_down c w).current_station
    ∧ (cmd_move_up c w).current_station < (cmd_move_up c w).stations.length
    ∧ (cmd_move_down c w).current_station < (cmd_move_down c w).stations.length
    ∧ (cmd_move_up c w).stations = w.stations
    ∧ (cmd_move_down c w).stations = w.stations
    ∧ (w.current_station = 0 →
        menu_to_str c (cmd_move_up c w) = menu_to_str c w
        ∧ broadcasts (cmd_move_up c w).trace = broadcasts w.trace ++ [menu_to_str c w])
    ∧ (w.current_station = w.stations.length - 1 →
        menu_to_str c (cmd_move_down c w) = menu_to_str c w
        ∧ broadcasts (cmd_move_down c w).trace = broadcasts w.trace ++ [menu_to_str c w]) := by
  have hpos : 0 < w.stations.length := List.length_pos.mpr hne
  rw [cmd_move_up_eq, cmd_move_down_eq]
  refine ⟨rfl, ?_, ?_, ?_, ?_, ?_, rfl, rfl, ?_, ?_⟩
  · by_cases h : w.current_station = w.stations.length - 1 <;> simp [h]
  · by_cases h : w.current_station = 0 <;> simp [h]
  · by_cases h : w.current_station = w.stations.length - 1 <;> simp [h]
  · by_cases h : w.current_station = 0
    · simpa [h] using hpos
    · simp only [h, if_false]; omega
  · by_cases h : w.current_station = w.stations.length - 1
    · simpa [h] using hpos
    · simp only [h, if_false]; omega
  · intro h
    refine ⟨menu_to_str_congr c _ w rfl (by simp [h]), ?_⟩
    have hm : menu_to_str c { w with current_station := 0 } = menu_to_str c w :=
      menu_to_str_congr c _ w rfl h.symm
    simp [h, hm, broadcasts_append, broadcasts_frames, broadcasts]
  · intro h
    refine ⟨menu_to_str_congr c _ w rfl (by simp [← h]), ?_⟩
    simp [← h, broadcasts_append, broadcasts_frames, broadcasts]

/-- The two saturated moves of the scenario: up from "Jazz FM" and down from
"News 24" leave the cursor where it is. -/
theorem navigation_saturating_witness :
    (cmd_move_up sample_consts { on_news with current_station := 0 }).current_station = 0
    ∧ (cmd_move_down sample_consts on_news).current_station = 2
    ∧ (cmd_move_up sample_consts on_news).current_station = 1 := by
  have hup := navigation_saturating sample_consts { on_news with current_station := 0 }
    (by decide) (by decide)
  have hdown := navigation_saturating sample_consts on_news (by decide) (by decide)
  exact ⟨hup.1, hdown.2.1, hdown.1⟩

/-- C5. On a non-empty station list with a valid cursor, `cmd_move_up` and
`cmd_move_down` append exactly one `CURRENT_STATION_CHANGED` to the event queue of the
audio receiver when the cursor changed and nothing when it did not, and in both cases
call `send_to_all` exactly once, with the menu rendered from the state after the
move, which every occupied slot receives in one frame. -/
theorem navigation_notifies (c : UiConsts) (w : World)
    (_hne : w.stations ≠ []) (_hc : w.current_station < w.stations.length) :
    ((cmd_move_up c w).current_station ≠ w.current_station →
        (cmd_move_up c w).audio_receiver_event =
          w.audio_receiver_event ++ [EventType.CURRENT_STATION_CHANGED])
    ∧ ((cmd_move_up c w).current_station = w.current_station →
        (cmd_move_up c w).audio_receiver_event = w.audio_receiver_event)
    ∧ broadcasts (cmd_move_up c w).trace =
        broadcasts w.trace ++ [menu_to_str c (cmd_move_up c w)]
    ∧ (∃ before : List Act, (cmd_move_up c w).trace =
        before ++ (occupied w.client_sockets).map (frame c (menu_to_str c (cmd_move_up c w)))
          ++ [Act.release .client_sockets, Act.release .current_station,
              Act.release .stations])
    ∧ ((cmd_move_down c w).current_station ≠ w.current_station →
        (cmd_move_down c w).audio_receiver_event =
          w.audio_receiver_event ++ [EventType.CURRENT_STATION_CHANGED])
    ∧ ((cmd_move_down c w).current_station = w.current_station →
        (cmd_move_down c w).audio_receiver_event = w.audio_receiver_event)
    ∧ broadcasts (cmd_move_down c w).trace =
        broadcasts w.trace ++ [menu_to_str c (cmd_move_down c w)]
    ∧ (∃ before : List Act, (cmd_move_down c w).trace =
        before ++ (occupied w.client_sockets).map (frame c (menu_to_str c (cmd_move_down c w)))
          ++ [Act.release .client_sockets, Act.release .current_station,
              Act.release .stations]) := by
  have hup : menu_to_str c (cmd_move_up c w) = menu_to_str c
      { w with current_station := if w.current_station = 0 then 0 else w.current_station - 1 } :=
    menu_to_str_congr c _ _ (by rw [cmd_move_up_eq]) (by rw [cmd_move_up_eq])
  have hdown : menu_to_str c (cmd_move_down c w) = menu_to_str c
      { w with current_station :=
          if w.current_station = w.stations.length - 1 then w.current_station
          else w.current_station + 1 } :=
    menu_to_str_congr c _ _ (by rw [cmd_move_down_eq]) (by rw [cmd_move_down_eq])
  rw [hup, hdown, cmd_move_up_eq, cmd_move_down_eq]
  refine ⟨?_, ?_, ?_, ⟨_, rfl⟩, ?_, ?_, ?_, ⟨_, rfl⟩⟩
  · by_cases h : w.current_station = 0 <;> simp [h]
  · by_cases h : w.current_station = 0
    · simp [h]
    · intro h2
      simp only [h, if_false] at h2
      omega
  · by_cases h : w.current_station = 0 <;>
      simp [h, broadcasts_append, broadcasts_frames, broadcasts]
  · by_cases h : w.current_station = w.stations.length - 1 <;> simp [h]
  · by_cases h : w.current_station = w.stations.length - 1 <;> simp [h]
  · by_cases h : w.current_station = w.stations.length - 1 <;>
      simp [h, broadcasts_append, broadcasts_frames, broadcasts]

/-- The scenario of C5: the list "Jazz FM", "Rock Radio", "News 24" with the cursor on
"News 24"; a down-arrow keeps the cursor, enqueues no event and broadcasts once, the
same text as before. -/
theorem navigation_notifies_witness :
    on_news.stations ≠ [] ∧ on_news.current_station < on_news.stations.length
    ∧ (cmd_move_down sample_consts on_news).current_station = on_news.current_station
    ∧ (cmd_move_down sample_consts on_news).audio_receiver_event = on_news.audio_receiver_event
    ∧ broadcasts (cmd_move_down sample_consts on_news).trace =
        [menu_to_str sample_consts on_news] := by
  have h := navigation_notifies sample_consts on_news (by decide) (by decide)
  have hcur : (cmd_move_down sample_consts on_news).current_station = on_news.current_station :=
    rfl
  refine ⟨by decide, by decide, hcur, h.2.2.2.2.2.1 hcur, ?_⟩
  rw [h.2.2.2.2.2.2.1]
  exact congrArg (fun t => [t]) (menu_to_str_congr _ _ _ rfl hcur)

/-! ## Command dispatch -/

/-- The lookup in `_command_map` is an exact comparison with the two keys, the
up-arrow first. -/
theorem command_map_lookup (c : UiConsts) (text : String) :
    (command_map c).lookup text =
      if text = c.ARROW_UP then some Command.move_up
      else if text = c.ARROW_DOWN then some Command.move_down
      else none := by
  have hb : ∀ a b : String, (a == b) = decide (a = b) := fun a b => by
    by_cases h : a = b <;> simp [h]
  unfold command_map emplace
  simp only [List.lookup, hb, List.nil_append]
  by_cases hud : c.ARROW_DOWN = c.ARROW_UP
  · by_cases h1 : text = c.ARROW_UP <;> simp [List.lookup, hb, hud, h1]
  · by_cases h1 : text = c.ARROW_UP
    · simp [List.lookup, hb, hud, h1]
    · by_cases h2 : text = c.ARROW_DOWN <;> simp [List.lookup, hb, hud, h1, h2]

/-- C8. `apply_cmd` raises the unknown-command error exactly when the text equals
neither the up-arrow nor the down-arrow key sequence; when it raises, the whole state
(cursor, station list, event queue, sockets, and the trace, so no broadcast) is as
before; on the up-arrow sequence it returns after `cmd_move_up`, and on the
down-arrow sequence, a sequence other than the up-arrow one, after `cmd_move_down`. -/
theorem apply_cmd_dispatch (c : UiConsts) (cmd_buf : String) (w : World) :
    (apply_cmd c cmd_buf w = Outcome.raised "Unknown command" w ↔
        (cmd_buf ≠ c.ARROW_UP ∧ cmd_buf ≠ c.ARROW_DOWN))
    ∧ (∀ (what : String) (w1 : World), apply_cmd c cmd_buf w = Outcome.raised what w1 →
        what = "Unknown command" ∧ w1 = w ∧ cmd_buf ≠ c.ARROW_UP ∧ cmd_buf ≠ c.ARROW_DOWN)
    ∧ (∀ w1 : World, apply_cmd c cmd_buf w ≠ Outcome.aborted w1)
    ∧ (cmd_buf = c.ARROW_UP → apply_cmd c cmd_buf w = Outcome.ok (cmd_move_up c w))
    ∧ (c.ARROW_UP ≠ c.ARROW_DOWN → cmd_buf = c.ARROW_DOWN →
        apply_cmd c cmd_buf w = Outcome.ok (cmd_move_down c w)) := by
  unfold apply_cmd
  rw [command_map_lookup]
  by_cases h1 : cmd_buf = c.ARROW_UP
  · simp only [h1, if_true]
    refine ⟨by simp, by simp, by simp, fun _ => rfl, fun hkeys h => absurd h hkeys⟩
  · by_cases h2 : cmd_buf = c.ARROW_DOWN
    · have hdu : c.ARROW_DOWN ≠ c.ARROW_UP := fun h => h1 (h2.trans h)
      simp [h2, hdu, Command.call]
    · simp [h1, h2]

/-- The dispatch of three texts in the scenario: the down-arrow sequence is run, the
same sequence followed by a blank or in another case is refused. -/
theorem apply_cmd_dispatch_witness :
    sample_consts.ARROW_UP ≠ sample_consts.ARROW_DOWN
    ∧ apply_cmd sample_consts "\x1b[B" on_news = Outcome.ok (cmd_move_down sample_consts on_news)
    ∧ apply_cmd sample_consts "\x1b[B " on_news = Outcome.raised "Unknown command" on_news
    ∧ apply_cmd sample_consts "\x1b[b" on_news = Outcome.raised "Unknown command" on_news := by
  refine ⟨by decide, ?_, ?_, ?_⟩
  · exact (apply_cmd_dispatch sample_consts "\x1b[B" on_news).2.2.2.2 (by decide) rfl
  · exact (apply_cmd_dispatch sample_consts "\x1b[B " on_news).1.mpr ⟨by decide, by decide⟩
  · exact (apply_cmd_dispatch sample_consts "\x1b[b" on_news).1.mpr ⟨by decide, by decide⟩

/-! ## Slot/descriptor consistency -/

/-- Consistency only looks at which slots are empty and which descriptors inactive. -/
theorem Consistent.transfer {M : Nat} {w w1 : World} (h : Consistent M w)
    (hs : ∀ i, w1.slot_empty i ↔ w.slot_empty i)
    (hf : ∀ i, w1.fd_inactive i ↔ w.fd_inactive i) : Consistent M w1 := by
  intro i hi
  rw [hs i, hf i]
  exact h i hi

theorem Consistent.emit {M : Nat} {w : World} (h : Consistent M w) (a : Act) :
    Consistent M (w.emit a) :=
  h.transfer (fun _ => Iff.rfl) (fun _ => Iff.rfl)

/-- Putting a socket into an existing slot and an active descriptor next to it keeps
the table consistent. -/
theorem Consistent.occupy {M : Nat} {w w1 : World} (h : Consistent M w) (k : Nat)
    (sock : TcpClientSocket) (p : pollfd) (hp : p.fd ≠ -1)
    (hks : k < w.client_sockets.length) (hkf : k < w.poll_fds.length)
    (hs : w1.client_sockets = w.client_sockets.set k (some sock))
    (hf : w1.poll_fds = w.poll_fds.set k p) : Consistent M w1 := by
  intro i hi
  by_cases hik : k = i
  · subst hik
    simp [World.slot_empty, World.fd_inactive, hs, hf, List.getElem?_set_self hks,
      List.getElem?_set_self hkf, hp]
  · have := h i hi
    simpa [World.slot_empty, World.fd_inactive, hs, hf, List.getElem?_set_ne hik] using this

/-- Emptying an existing slot and deactivating its descriptor keeps the table
consistent. -/
theorem Consistent.vacate {M : Nat} {w w1 : World} (h : Consistent M w) (k : Nat)
    (p : pollfd) (hp : p.fd = -1)
    (hks : k < w.client_sockets.length) (hkf : k < w.poll_fds.length)
    (hs : w1.client_sockets = w.client_sockets.set k none)
    (hf : w1.poll_fds = w.poll_fds.set k p) : Consistent M w1 := by
  intro i hi
  by_cases hik : k = i
  · subst hik
    simp [World.slot_empty, World.fd_inactive, hs, hf, List.getElem?_set_self hks,
      List.getElem?_set_self hkf, hp]
  · have := h i hi
    simpa [World.slot_empty, World.fd_inactive, hs, hf, List.getElem?_set_ne hik] using this

theorem lt_length_of_getElem? {α : Type} {l : List α} {i : Nat} {a : α}
    (h : l[i]? = some a) : i < l.length := by
  rcases List.getElem?_eq_some.mp h with ⟨hi, _⟩
  exact hi

theorem try_register_client_loop_consistent (c : UiConsts) (client_fd : Int)
    (hfd : client_fd ≠ -1) (M n : Nat) (i : Nat) (w : World) (h : Consistent M w) :
    Consistent M (try_register_client_loop c client_fd n i w).state := by
  induction n generalizing i with
  | zero => exact h
  | succ n ih =>
    unfold try_register_client_loop
    cases hs : w.client_sockets[i]? with
    | none => exact h
    | some slot =>
      cases slot with
      | none => exact ih (i + 1)
      | some old =>
        cases hp : w.poll_fds[i]? with
        | none => exact h
        | some p =>
          by_cases hpfd : p.fd = -1
          · simpa [hpfd, Outcome.state] using h
          · simp only [hpfd, if_false, Outcome.state]
            exact h.occupy i _ { p with fd := client_fd } hfd
              (lt_length_of_getElem? hs) (lt_length_of_getElem? hp) rfl rfl

theorem try_register_client_consistent (c : UiConsts) (M : Nat) (client_fd : Int)
    (hfd : client_fd ≠ -1) (w : World) (h : Consistent M w) :
    Consistent M (try_register_client c M client_fd w).state := by
  have hl := try_register_client_loop_consistent c client_fd hfd M M 0
    (w.emit (.acquire .client_sockets)) (h.emit _)
  unfold try_register_client
  cases hr : try_register_client_loop c client_fd M 0 (w.emit (.acquire .client_sockets)) with
  | ok w1 => rw [hr] at hl; exact Consistent.emit hl _
  | raised what w1 => rw [hr] at hl; exact Consistent.emit hl _
  | aborted w1 => rw [hr] at hl; exact hl

theorem disconnect_client_consistent (M : Nat) (k : Nat) (sock : TcpClientSocket) (w : World)
    (hk : w.client_sockets[k]? = some (some sock)) (h : Consistent M w) :
    Consistent M (disconnect_client k w).state := by
  unfold disconnect_client
  cases hp : w.poll_fds[k]? with
  | none => exact h
  | some p =>
    simp only [hk, Outcome.state]
    exact h.vacate k { p with fd := -1 } rfl (lt_length_of_getElem? hk)
      (lt_length_of_getElem? hp) rfl rfl

theorem getElem?_map_flushed_none (l : List (Option TcpClientSocket)) (j : Nat) :
    (l.map (Option.map flushed))[j]? = some none ↔ l[j]? = some none := by
  rw [List.getElem?_map]
  cases l[j]? with
  | none => simp
  | some x => cases x <;> simp

theorem getElem?_set_some_none (l : List (Option TcpClientSocket)) (i j : Nat)
    (old new : TcpClientSocket) (h : l[i]? = some (some old)) :
    (l.set i (some new))[j]? = some none ↔ l[j]? = some none := by
  by_cases hij : i = j
  · subst hij
    simp [List.getElem?_set_self (lt_length_of_getElem? h), h]
  · rw [List.getElem?_set_ne hij]

theorem send_to_all_consistent (c : UiConsts) (M : Nat) (msg : String) (w : World)
    (h : Consistent M w) : Consistent M (send_to_all c msg w) := by
  rw [send_to_all_eq]
  exact h.transfer (fun j => getElem?_map_flushed_none _ j) (fun _ => Iff.rfl)

theorem Command.call_consistent (c : UiConsts) (M : Nat) (f : Command) (w : World)
    (h : Consistent M w) : Consistent M (f.call c w) := by
  cases f with
  | move_up =>
    simp only [Command.call]
    rw [cmd_move_up_eq]
    exact h.transfer (fun j => getElem?_map_flushed_none _ j) (fun _ => Iff.rfl)
  | move_down =>
    simp only [Command.call]
    rw [cmd_move_down_eq]
    exact h.transfer (fun j => getElem?_map_flushed_none _ j) (fun _ => Iff.rfl)

/-- The `try` block of the client `i` never stops the process, keeps the table
consistent and leaves slot `i` occupied when it throws. -/
theorem run_try_block_consistent (c : UiConsts) (M : Nat) (i : Nat) (sock : TcpClientSocket)
    (w : World) (hs : w.client_sockets[i]? = some (some sock)) (h : Consistent M w) :
    Consistent M (run_try_block c i sock w).state
    ∧ (∀ w1 : World, run_try_block c i sock w ≠ Outcome.aborted w1)
    ∧ (∀ (what : String) (w1 : World), run_try_block c i sock w = Outcome.raised what w1 →
        ∃ sock1 : TcpClientSocket, w1.client_sockets[i]? = some (some sock1)) := by
  have hi : i < w.client_sockets.length := lt_length_of_getElem? hs
  unfold run_try_block
  cases hr : read_cmd sock with
  | error e =>
    refine ⟨h, by simp, ?_⟩
    intro what w1 hw
    simp only [Outcome.raised.injEq] at hw
    exact ⟨sock, hw.2 ▸ hs⟩
  | ok r =>
    obtain ⟨cmd_buf, sock1⟩ := r
    have h1 : Consistent M { w with client_sockets := w.client_sockets.set i (some sock1) } :=
      h.transfer (fun j => getElem?_set_some_none _ i j sock sock1 hs) (fun _ => Iff.rfl)
    simp only [apply_cmd]
    cases hl : (command_map c).lookup cmd_buf with
    | none =>
      refine ⟨h1, by simp, ?_⟩
      intro what w1 hw
      simp only [Outcome.raised.injEq] at hw
      refine ⟨sock1, ?_⟩
      rw [← hw.2]
      simp [List.getElem?_set_self hi]
    | some f => exact ⟨Command.call_consistent c M f _ h1, by simp, by simp⟩

theorem run_session_step_consistent (c : UiConsts) (M : Nat) (i : Nat) (w : World)
    (h : Consistent M w) : Consistent M (run_session_step c i w).state := by
  unfold run_session_step
  cases hp : w.poll_fds[i]? with
  | none => exact h
  | some p =>
    by_cases hready : p.fd ≠ -1 ∧ p.revents &&& POLLIN ≠ 0
    · simp only [hready, ne_eq, not_false_eq_true, and_self, if_true]
      cases hs : w.client_sockets[i]? with
      | none => exact h
      | some slot =>
        cases slot with
        | none => exact h
        | some sock =>
          have h0 : Consistent M
              { w with poll_fds := w.poll_fds.set i { p with revents := 0 } } := by
            refine h.transfer (fun _ => Iff.rfl) (fun j => ?_)
            by_cases hij : i = j
            · subst hij
              simp [World.fd_inactive, List.getElem?_set_self (lt_length_of_getElem? hp), hp]
            · simp [World.fd_inactive, List.getElem?_set_ne hij]
          by_cases heof : sock.in_eof = true
          · simp only [heof, if_true]
            exact disconnect_client_consistent M i sock _ hs h0
          · simp only [heof]
            obtain ⟨hc, hna, hocc⟩ := run_try_block_consistent c M i sock
              ({ w with poll_fds := w.poll_fds.set i { p with revents := 0 } } : World) hs h0
            cases ht : run_try_block c i sock
                { w with poll_fds := w.poll_fds.set i { p with revents := 0 } } with
            | ok w1 => rw [ht] at hc; exact hc
            | raised what w1 =>
              rw [ht] at hc
              obtain ⟨sock1, hs1⟩ := hocc what w1 ht
              exact disconnect_client_consistent M i sock1 w1 hs1 hc
            | aborted w1 => exact absurd ht (hna w1)
    · simp only [hready, if_false]
      exact h

/-- C3. Slot/descriptor consistency (slot `i` is empty iff descriptor `i` is
inactive, for every `i < MAX_CLIENTS`) is kept by `try_register_client` with a
descriptor other than -1, whether it returns or raises, and by `disconnect_client` on
an occupied slot; hence it holds in every state reached from a table with all slots
empty and all descriptors inactive by these operations, and also by the steps of the
dispatch loop and by broadcasts. -/
theorem consistency_invariant (c : UiConsts) (MAX_CLIENTS : Nat) :
    (∀ (w : World) (client_fd : Int), Consistent MAX_CLIENTS w → client_fd ≠ -1 →
        Consistent MAX_CLIENTS (try_register_client c MAX_CLIENTS client_fd w).state)
    ∧ (∀ (w : World) (k : Nat) (sock : TcpClientSocket), Consistent MAX_CLIENTS w →
        w.client_sockets[k]? = some (some sock) →
        Consistent MAX_CLIENTS (disconnect_client k w).state)
    ∧ (∀ w : World, Reachable c MAX_CLIENTS w → Consistent MAX_CLIENTS w) := by
  refine ⟨fun w fd h hfd => try_register_client_consistent c _ fd hfd w h,
    fun w k sock h hk => disconnect_client_consistent _ k sock w hk h, ?_⟩
  intro w hr
  induction hr with
  | init w h => exact fun i hi => ⟨fun _ => (h i hi).2, fun _ => (h i hi).1⟩
  | register w fd _ hfd ih => exact try_register_client_consistent c _ fd hfd w ih
  | disconnect w k sock _ hk ih => exact disconnect_client_consistent _ k sock w hk ih
  | dispatch w i _ ih => exact run_session_step_consistent c _ i w ih
  | broadcast w msg _ ih => exact send_to_all_consistent c _ msg w ih

/-- Consistency in the scenario: the table with one client in slot 0 is consistent,
and so are the tables after one more registration and after the disconnection of
slot 0. -/
theorem consistency_invariant_witness :
    Consistent 2 on_news
    ∧ Consistent 2 (try_register_client sample_consts 2 5 on_news).state
    ∧ Consistent 2 (disconnect_client 0 on_news).state := by
  have h0 : Consistent 2 on_news := by decide
  exact ⟨h0, (consistency_invariant sample_consts 2).1 on_news 5 h0 (by decide),
    (consistency_invariant sample_consts 2).2.1 on_news 0 _ h0 rfl⟩

/-! ## Registration -/

/-- C1, the code at the failing input: on the table of two empty slots
`try_register_client` raises "Too many clients" and the table is as before; the new
client is in no slot. -/
theorem try_register_client_on_empty_table :
    try_register_client sample_consts 2 5 empty_table =
      Outcome.raised "Too many clients"
        { empty_table with
          trace := [Act.acquire .client_sockets, Act.release .client_sockets] } := by
  rfl

/-- C2, the code at the failing input: on the full table of two slots the handling of
a new connection on descriptor 7 returns normally, the client of slot 0 is destroyed
(its descriptor 4 is closed) and slot 0 and descriptor 0 now hold the new client; the
new connection is not closed. -/
theorem run_step_on_full_table :
    ∃ w1 : World, TcpServerWorker_run_step sample_consts 2 7 full_table = Outcome.ok w1
      ∧ w1.client_sockets = [some (TcpClientSocket.create 7), some (TcpClientSocket.create 6)]
      ∧ w1.poll_fds = [⟨7, POLLIN, 0⟩, ⟨6, POLLIN, 0⟩, ⟨3, POLLIN, 0⟩]
      ∧ Act.close 4 ∈ w1.trace
      ∧ Act.close 7 ∉ w1.trace := by
  refine ⟨_, rfl, rfl, rfl, ?_, ?_⟩ <;> decide

/-- C6, the code at the failing input: in the full table of two slots the client of
slot 1 sends an unknown command; the step returns normally with slot 1 empty,
descriptor 1 inactive and slot 0 untouched; the registration that follows does not
use the free slot 1 but destroys the client of slot 0 and puts the new one there. -/
theorem fault_then_register :
    ∃ w1 w2 : World, run_session_step sample_consts 1 slot_1_sent_x = Outcome.ok w1
      ∧ w1.client_sockets = [some (TcpClientSocket.create 4), none]
      ∧ w1.poll_fds = [⟨4, POLLIN, 0⟩, ⟨-1, POLLIN, 0⟩, ⟨3, POLLIN, 0⟩]
      ∧ try_register_client sample_consts 2 7 w1 = Outcome.ok w2
      ∧ w2.client_sockets = [some (TcpClientSocket.create 7), none]
      ∧ w2.poll_fds = [⟨7, POLLIN, 0⟩, ⟨-1, POLLIN, 0⟩, ⟨3, POLLIN, 0⟩]
      ∧ Act.close 4 ∈ w2.trace := by
  refine ⟨_, _, rfl, rfl, rfl, rfl, rfl, rfl, ?_⟩
  decide

/-- On a table whose first `n` slots from `i` on are all empty the loop of
`try_register_client` finds no slot to use. -/
theorem try_register_client_loop_all_empty (c : UiConsts) (client_fd : Int) (n i : Nat)
    (w : World) (h : ∀ j, i ≤ j → j < i + n → w.client_sockets[j]? = some none) :
    try_register_client_loop c client_fd n i w = Outcome.raised "Too many clients" w := by
  induction n generalizing i with
  | zero => rfl
  | succ n ih =>
    unfold try_register_client_loop
    rw [h i (Nat.le_refl i) (by omega)]
    exact ih (i + 1) (fun j h1 h2 => h j (by omega) (by omega))

/-- `disconnect_client` on an occupied slot with a descriptor returns normally. -/
theorem disconnect_client_ok (k : Nat) (w : World) (p : pollfd) (sock : TcpClientSocket)
    (hp : w.poll_fds[k]? = some p) (hs : w.client_sockets[k]? = some (some sock)) :
    disconnect_client k w = Outcome.ok
      { w with
        poll_fds := w.poll_fds.set k { p with fd := -1 }
        client_sockets := w.client_sockets.set k none
        trace := w.trace ++ [Act.close sock.fd, Act.close sock.fd] } := by
  simp [disconnect_client, hp, hs, World.emit]

/-- When the `try` block of the client `k` throws, the state it leaves differs from
the one it started in at most in the socket of slot `k`, which is still there. -/
theorem run_try_block_raised (c : UiConsts) (k : Nat) (sock : TcpClientSocket) (w w1 : World)
    (what : String) (hs : w.client_sockets[k]? = some (some sock))
    (h : run_try_block c k sock w = Outcome.raised what w1) :
    w1.poll_fds = w.poll_fds
    ∧ (∃ sock1 : TcpClientSocket, w1.client_sockets[k]? = some (some sock1))
    ∧ (∀ j : Nat, j ≠ k → w1.client_sockets[j]? = w.client_sockets[j]?)
    ∧ w1.stations = w.stations ∧ w1.current_station = w.current_station
    ∧ w1.audio_receiver_event = w.audio_receiver_event ∧ w1.trace = w.trace := by
  have hk : k < w.client_sockets.length := lt_length_of_getElem? hs
  unfold run_try_block at h
  cases hr : read_cmd sock with
  | error e =>
    simp only [hr, Outcome.raised.injEq] at h
    rw [← h.2]
    exact ⟨rfl, ⟨sock, hs⟩, fun _ _ => rfl, rfl, rfl, rfl, rfl⟩
  | ok r =>
    obtain ⟨cmd_buf, sock1⟩ := r
    simp only [hr, apply_cmd] at h
    cases hl : (command_map c).lookup cmd_buf with
    | none =>
      simp only [hl, Outcome.raised.injEq] at h
      rw [← h.2]
      refine ⟨rfl, ⟨sock1, ?_⟩, fun j hj => ?_, rfl, rfl, rfl, rfl⟩
      · simp [List.getElem?_set_self hk]
      · simp [List.getElem?_set_ne (Ne.symm hj)]
    | some f => simp [hl] at h

/-- The part of C6 the dispatch loop does provide: when the client of the ready slot
`k` is at end-of-stream, or its read or its command throws, the step returns normally
(the loop goes on), slot `k` is empty and descriptor `k` inactive afterwards, and every
other slot and descriptor, the station list, the cursor and the event queue are as
before. -/
theorem run_session_step_fault_isolated (c : UiConsts) (w : World) (k : Nat) (p : pollfd)
    (sock : TcpClientSocket) (hp : w.poll_fds[k]? = some p)
    (hready : p.fd ≠ -1 ∧ p.revents &&& POLLIN ≠ 0)
    (hs : w.client_sockets[k]? = some (some sock))
    (hfault : sock.in_eof = true ∨ ∃ (what : String) (w1 : World),
      run_try_block c k sock { w with poll_fds := w.poll_fds.set k { p with revents := 0 } }
        = Outcome.raised what w1) :
    ∃ w2 : World, run_session_step c k w = Outcome.ok w2
      ∧ w2.slot_empty k ∧ w2.fd_inactive k
      ∧ (∀ j : Nat, j ≠ k →
          w2.client_sockets[j]? = w.client_sockets[j]? ∧ w2.poll_fds[j]? = w.poll_fds[j]?)
      ∧ w2.client_sockets.length = w.client_sockets.length
      ∧ w2.poll_fds.length = w.poll_fds.length
      ∧ w2.stations = w.stations ∧ w2.current_station = w.current_station
      ∧ w2.audio_receiver_event = w.audio_receiver_event := by
  have hkf : k < w.poll_fds.length := lt_length_of_getElem? hp
  have hks : k < w.client_sockets.length := lt_length_of_getElem? hs
  have hp0 : ({ w with poll_fds := w.poll_fds.set k { p with revents := 0 } } : World).poll_fds[k]?
      = some { p with revents := 0 } := by simp [List.getElem?_set_self hkf]
  unfold run_session_step
  simp only [hp, hready, hs, ne_eq, not_false_eq_true, and_self, if_true]
  by_cases heof : sock.in_eof = true
  · simp only [heof, if_true]
    rw [disconnect_client_ok k _ _ sock hp0 hs]
    refine ⟨_, rfl, ?_, ?_, fun j hj => ⟨?_, ?_⟩, ?_, ?_, rfl, rfl, rfl⟩
    · simp [World.slot_empty, List.getElem?_set_self hks]
    · simp [World.fd_inactive, List.getElem?_set_self hkf]
    · simp [List.getElem?_set_ne (Ne.symm hj)]
    · simp [List.getElem?_set_ne (Ne.symm hj)]
    · simp
    · simp
  · rcases hfault with hfault | ⟨what, w1, hraise⟩
    · exact absurd hfault heof
    · simp only [heof, hraise]
      obtain ⟨hpf, ⟨sock1, hs1⟩, hothers, hst, hcur, haud, _⟩ :=
        run_try_block_raised c k sock
          ({ w with poll_fds := w.poll_fds.set k { p with revents := 0 } } : World)
          w1 what hs hraise
      have hp1 : w1.poll_fds[k]? = some { p with revents := 0 } := by rw [hpf]; exact hp0
      have hks1 : k < w1.client_sockets.length := lt_length_of_getElem? hs1
      have hkf1 : k < w1.poll_fds.length := lt_length_of_getElem? hp1
      have hothers2 : ∀ j : Nat, j ≠ k → w1.client_sockets[j]? = w.client_sockets[j]? :=
        fun j hj => hothers j hj
      have hlen : w1.client_sockets.length = w.client_sockets.length := by
        apply Nat.le_antisymm
        · by_contra hlt
          have hlt2 : w.client_sockets.length < w1.client_sockets.length := by omega
          have hne : w.client_sockets.length ≠ k := by omega
          have h1 := hothers2 _ hne
          rw [List.getElem?_eq_none (Nat.le_refl _)] at h1
          have := List.getElem?_eq_none_iff.mp h1
          omega
        · by_contra hlt
          have hlt2 : w1.client_sockets.length < w.client_sockets.length := by omega
          have hne : w1.client_sockets.length ≠ k := by omega
          have h1 := hothers2 _ hne
          rw [List.getElem?_eq_none (Nat.le_refl _)] at h1
          have := List.getElem?_eq_none_iff.mp h1.symm
          omega
      rw [disconnect_client_ok k _ _ sock1 hp1 hs1]
      refine ⟨_, rfl, ?_, ?_, fun j hj => ⟨?_, ?_⟩, ?_, ?_, hst, hcur, haud⟩
      · simp [World.slot_empty, List.getElem?_set_self hks1]
      · simp [World.fd_inactive, List.getElem?_set_self hkf1]
      · simp [List.getElem?_set_ne (Ne.symm hj), hothers j hj]
      · simp [List.getElem?_set_ne (Ne.symm hj), hpf]
      · simpa using hlen
      · simp [hpf]

/-! ## Lock discipline -/

theorem holds_append (a b : List Act) : holds (a ++ b) = b.foldl holds_step (holds a) := by
  simp [holds, List.foldl_append]

theorem foldl_holds_step_frames (c : UiConsts) (msg : String) (socks : List TcpClientSocket)
    (held : List Lock) : (socks.map (frame c msg)).foldl holds_step held = held := by
  induction socks with
  | nil => rfl
  | cons x xs ih => simpa [holds_step, frame] using ih

/-- C10, as the claim states it, fails: in the scenario, at the fourth action of
`cmd_move_down` (the lock on the client sockets is taken for the broadcast) the two
Navigation State locks are still held. -/
theorem cmd_move_down_holds_both :
    ¬ never_both_held (cmd_move_down sample_consts on_news).trace := by
  intro h
  exact h 4 (by decide) (by decide)

/-- C10, amended. On a non-empty station list with a valid cursor, the actions of
`cmd_move_up` and of `cmd_move_down` are: the acquisition of the lock on the stations,
then of the lock on the current station, then either nothing or the acquisition and
the release of the lock on the audio receiver's events, then the call of `send_to_all`
with the menu of the state after the move, at which point exactly the lock on the
current station and the lock on the stations are held, then the acquisition of the
lock on the client sockets, then only flushes to client sockets, then the release of
the lock on the client sockets, of the lock on the current station and of the lock on
the stations, in this order; after them none of the locks the command acquired is
held. -/
theorem navigation_locks_nested (c : UiConsts) (w : World)
    (_hne : w.stations ≠ []) (_hc : w.current_station < w.stations.length) :
    (∃ events before frames : List Act,
        (cmd_move_up c w).trace = w.trace ++ before ++ [Act.acquire .client_sockets] ++ frames
          ++ [Act.release .client_sockets, Act.release .current_station,
              Act.release .stations]
        ∧ before = [Act.acquire .stations, Act.acquire .current_station] ++ events
            ++ [Act.broadcast (menu_to_str c (cmd_move_up c w))]
        ∧ (events = [] ∨
            events = [Act.acquire .audio_receiver_event, Act.release .audio_receiver_event])
        ∧ holds before = [Lock.current_station, Lock.stations]
        ∧ (∀ a ∈ frames, ∃ (fd : Int) (bytes : String), a = Act.flush fd bytes)
        ∧ holds (before ++ [Act.acquire .client_sockets] ++ frames) =
            [Lock.client_sockets, Lock.current_station, Lock.stations]
        ∧ holds (before ++ [Act.acquire .client_sockets] ++ frames
            ++ [Act.release .client_sockets, Act.release .current_station,
                Act.release .stations]) = [])
    ∧ (∃ events before frames : List Act,
        (cmd_move_down c w).trace = w.trace ++ before ++ [Act.acquire .client_sockets] ++ frames
          ++ [Act.release .client_sockets, Act.release .current_station,
              Act.release .stations]
        ∧ before = [Act.acquire .stations, Act.acquire .current_station] ++ events
            ++ [Act.broadcast (menu_to_str c (cmd_move_down c w))]
        ∧ (events = [] ∨
            events = [Act.acquire .audio_receiver_event, Act.release .audio_receiver_event])
        ∧ holds before = [Lock.current_station, Lock.stations]
        ∧ (∀ a ∈ frames, ∃ (fd : Int) (bytes : String), a = Act.flush fd bytes)
        ∧ holds (before ++ [Act.acquire .client_sockets] ++ frames) =
            [Lock.client_sockets, Lock.current_station, Lock.stations]
        ∧ holds (before ++ [Act.acquire .client_sockets] ++ frames
            ++ [Act.release .client_sockets, Act.release .current_station,
                Act.release .stations]) = []) := by
  have hup : menu_to_str c (cmd_move_up c w) = menu_to_str c
      { w with current_station := if w.current_station = 0 then 0 else w.current_station - 1 } :=
    menu_to_str_congr c _ _ (by rw [cmd_move_up_eq]) (by rw [cmd_move_up_eq])
  have hdown : menu_to_str c (cmd_move_down c w) = menu_to_str c
      { w with current_station :=
          if w.current_station = w.stations.length - 1 then w.current_station
          else w.current_station + 1 } :=
    menu_to_str_congr c _ _ (by rw [cmd_move_down_eq]) (by rw [cmd_move_down_eq])
  rw [hup, hdown]
  constructor
  · rw [cmd_move_up_eq]
    refine ⟨if w.current_station = 0 then []
          else [Act.acquire .audio_receiver_event, Act.release .audio_receiver_event],
        [Act.acquire .stations, Act.acquire .current_station]
          ++ (if w.current_station = 0 then []
              else [Act.acquire .audio_receiver_event, Act.release .audio_receiver_event])
          ++ [Act.broadcast (menu_to_str c { w with current_station :=
                if w.current_station = 0 then 0 else w.current_station - 1 })],
        (occupied w.client_sockets).map (frame c (menu_to_str c { w with current_station :=
                if w.current_station = 0 then 0 else w.current_station - 1 })),
        ?_, rfl, ?_, ?_, ?_, ?_, ?_⟩
    · simp
    · by_cases h : w.current_station = 0 <;> simp [h]
    · by_cases h : w.current_station = 0 <;> simp [h, holds, holds_step]
    · intro a ha
      simp only [List.mem_map] at ha
      rcases ha with ⟨sock, _, rfl⟩
      exact ⟨_, _, rfl⟩
    · by_cases h : w.current_station = 0 <;>
        simp [h, holds_append, foldl_holds_step_frames, holds, holds_step]
    · by_cases h : w.current_station = 0 <;>
        simp [h, holds_append, foldl_holds_step_frames, holds, holds_step]
  · rw [cmd_move_down_eq]
    refine ⟨if w.current_station = w.stations.length - 1 then []
          else [Act.acquire .audio_receiver_event, Act.release .audio_receiver_event],
        [Act.acquire .stations, Act.acquire .current_station]
          ++ (if w.current_station = w.stations.length - 1 then []
              else [Act.acquire .audio_receiver_event, Act.release .audio_receiver_event])
          ++ [Act.broadcast (menu_to_str c { w with current_station :=
                if w.current_station = w.stations.length - 1 then w.current_station
                else w.current_station + 1 })],
        (occupied w.client_sockets).map (frame c (menu_to_str c { w with current_station :=
                if w.current_station = w.stations.length - 1 then w.current_station
                else w.current_station + 1 })),
        ?_, rfl, ?_, ?_, ?_, ?_, ?_⟩
    · simp
    · by_cases h : w.current_station = w.stations.length - 1 <;> simp [h]
    · by_cases h : w.current_station = w.stations.length - 1 <;>
        simp [h, holds, holds_step]
    · intro a ha
      simp only [List.mem_map] at ha
      rcases ha with ⟨sock, _, rfl⟩
      exact ⟨_, _, rfl⟩
    · by_cases h : w.current_station = w.stations.length - 1 <;>
        simp [h, holds_append, foldl_holds_step_frames, holds, holds_step]
    · by_cases h : w.current_station = w.stations.length - 1 <;>
        simp [h, holds_append, foldl_holds_step_frames, holds, holds_step]

/-- The lock discipline in the scenario with the cursor on "News 24": the list is not
empty and the cursor valid, the actions of a down-arrow begin with the acquisition of
the lock on the stations and of the lock on the current station, and after all of
them no lock is held. -/
theorem navigation_locks_nested_witness :
    on_news.stations ≠ [] ∧ on_news.current_station < on_news.stations.length
    ∧ (cmd_move_down sample_consts on_news).trace.take 2 =
        [Act.acquire .stations, Act.acquire .current_station]
    ∧ holds (cmd_move_down sample_consts on_news).trace = [] := by
  obtain ⟨events, before, frames, htrace, hbefore, _, _, _, _, hall⟩ :=
    (navigation_locks_nested sample_consts on_news (by decide) (by decide)).2
  have hnil : on_news.trace = [] := rfl
  rw [hnil, List.nil_append] at htrace
  refine ⟨by decide, by decide, ?_, ?_⟩
  · rw [htrace, hbefore]
    rfl
  · rw [htrace]
    exact hall

/-- In the session-scanning phase of the dispatch loop the lock on the client sockets
is already held when a navigation command runs: in the scenario where the client of
slot 0 sends a down-arrow, the cursor moves to 1, one event is pushed, and at the
seventh action of the phase the lock on the client sockets is taken a second time
while the first guard and both Navigation State locks are held. -/
theorem run_sessions_takes_slot_lock_again :
    ∃ w1 : World, run_sessions sample_consts slot_0_sent_down = Outcome.ok w1
      ∧ w1.current_station = 1
      ∧ w1.audio_receiver_event = [EventType.CURRENT_STATION_CHANGED]
      ∧ holds (w1.trace.take 7) =
          [Lock.client_sockets, Lock.current_station, Lock.stations, Lock.client_sockets]
      ∧ holds w1.trace = [] := by
  refine ⟨_, rfl, rfl, rfl, ?_, ?_⟩ <;> decide

end SikRadio
